import Mathlib

/-
Verification of the client-side script src/assets/js/site.js of the
cw-apm-docs static documentation site.

The script has two parts:
  * buildNav: renders a hardcoded navigation tree (the NAV constant) into
    the container element with id "left-nav";
  * injectFeedbackForm: a feedback submitter that validates a short note,
    prompts for a bearer token, reads the remote file docs/Feedback.md via
    the GitHub contents API, composes the new content by appending one
    entry line and stripping leading whitespace, and writes it back.

Modelling conventions:
  * JavaScript strings are lists of characters (JsStr); String.prototype
    operations .trim and .replace with the leading-whitespace pattern are
    dropWhile over the ECMAScript whitespace class.
  * Base64 transport (atob on read, btoa on write) is modelled as the
    identity: read results carry the decoded text, write requests carry
    the pre-encoding text.
  * The two network round trips are modelled by their outcomes, passed in
    as parameters (ReadResult, WriteOutcome); the submitter is otherwise
    the deterministic function submitFeedback of its inputs.
  * The DOM container of buildNav is an optional list of group divs; a
    null dereference of an absent container is an Except.error.
-/

namespace Site

/-- JavaScript strings, modelled as lists of characters. -/
abbrev JsStr := List Char

/-- The ECMAScript whitespace class: the characters matched by the regex
class backslash-s and stripped by String.prototype.trim. -/
def isJsWhitespace (c : Char) : Bool :=
  c == ' ' || c == '\t' || c == '\n' || c == '\u000B' || c == '\u000C' ||
  c == '\r' || c == '\u00A0' || c == '\u1680' ||
  ('\u2000' ≤ c && c ≤ '\u200A') ||
  c == '\u2028' || c == '\u2029' || c == '\u202F' || c == '\u205F' ||
  c == '\u3000' || c == '\uFEFF'

/-- Strip the maximal run of leading whitespace: the effect of
`.replace(/^\s+/, '')` in site.js line 95. -/
def stripLeadingWs (s : JsStr) : JsStr := s.dropWhile isJsWhitespace

/-- `String.prototype.trim`: strip leading and trailing whitespace
(site.js line 65). -/
def jsTrim (s : JsStr) : JsStr :=
  ((s.dropWhile isJsWhitespace).reverse.dropWhile isJsWhitespace).reverse

/-- One entry of the navigation configuration: a link title and target. -/
structure NavItem where
  title : String
  href : String
deriving DecidableEq, Repr

/-- One group of the navigation configuration: a heading and its links. -/
structure NavGroup where
  title : String
  items : List NavItem
deriving DecidableEq, Repr

/-- The hardcoded NAV constant of site.js lines 1-14. -/
def NAV : List NavGroup := [
  ⟨"HOME", [⟨"Overview", "index.html"⟩, ⟨"What's New", "pages/whats-new.html"⟩,
    ⟨"Release Notes", "pages/release-notes.html"⟩]⟩,
  ⟨"GETTING STARTED", [⟨"Introduction", "pages/getting-started.html"⟩,
    ⟨"Quick Start", "pages/quick-start.html"⟩,
    ⟨"Setup by Compute Type", "pages/setup-by-compute.html"⟩,
    ⟨"Setup by Language", "pages/setup-by-language.html"⟩]⟩,
  ⟨"CONCEPTS & FUNDAMENTALS", [⟨"Core Concepts", "pages/concepts.html"⟩,
    ⟨"Instrumentation", "pages/instrumentation.html"⟩,
    ⟨"Data Model", "pages/data-model.html"⟩]⟩,
  ⟨"IMPLEMENTATION GUIDES", [⟨"Instrumentation", "pages/implementation.html"⟩,
    ⟨"Language-Specific Guides", "pages/language-guides.html"⟩,
    ⟨"Service Integration", "pages/service-integration.html"⟩]⟩,
  ⟨"FEATURES & CAPABILITIES", [⟨"Distributed Tracing", "pages/features.html"⟩,
    ⟨"Service Map", "pages/service-map.html"⟩,
    ⟨"Performance Analytics", "pages/performance-analytics.html"⟩]⟩,
  ⟨"EXAMPLES & CODE SAMPLES", [⟨"Examples", "pages/examples.html"⟩,
    ⟨"Code Snippets", "pages/code-samples.html"⟩]⟩,
  ⟨"API REFERENCE", [⟨"REST APIs", "pages/api.html"⟩,
    ⟨"SDK Reference", "pages/sdk-reference.html"⟩]⟩,
  ⟨"BEST PRACTICES", [⟨"Instrumentation Best Practices", "pages/best-practices.html"⟩,
    ⟨"Sampling Strategies", "pages/sampling.html"⟩]⟩,
  ⟨"TROUBLESHOOTING", [⟨"Common Issues", "pages/troubleshooting.html"⟩,
    ⟨"Debugging Guides", "pages/debugging.html"⟩]⟩,
  ⟨"SECURITY & COMPLIANCE", [⟨"Security", "pages/security.html"⟩,
    ⟨"Data Privacy", "pages/data-privacy.html"⟩]⟩,
  ⟨"INTEGRATIONS", [⟨"AWS Services", "pages/integrations.html"⟩,
    ⟨"Third-Party", "pages/third-party.html"⟩]⟩,
  ⟨"REFERENCE", [⟨"Service Limits", "pages/reference.html"⟩,
    ⟨"Glossary", "pages/glossary.html"⟩]⟩]

/-- A leaf DOM node created by buildNav: either the h3 heading of a group
or an anchor for one navigation entry. -/
inductive DomLeaf where
  | heading (text : String)
  | link (href text : String)
deriving DecidableEq, Repr

/-- The div.nav-group element buildNav appends per group: its ordered
children. -/
structure GroupDiv where
  children : List DomLeaf
deriving DecidableEq, Repr

/-- Build one group div exactly as the loop body of buildNav does: first
the h3 heading, then one anchor per item, in input order. -/
def renderGroup (g : NavGroup) : GroupDiv :=
  ⟨DomLeaf.heading g.title ::
    g.items.map (fun it => DomLeaf.link it.href it.title)⟩

/-- The NAV.forEach loop of buildNav (site.js lines 18-27). The container
is the result of getElementById: none when the element is absent. Each
iteration builds the group div and then calls container.appendChild, which
on a null container raises a TypeError. -/
def navLoop : Option (List GroupDiv) → List NavGroup →
    Except String (Option (List GroupDiv))
  | c, [] => Except.ok c
  | some cs, g :: gs => navLoop (some (cs ++ [renderGroup g])) gs
  | none, _ :: _ => Except.error "TypeError"

/-- buildNav (site.js lines 16-28): run the loop over the hardcoded NAV
against the looked-up container. -/
def buildNav (container : Option (List GroupDiv)) :
    Except String (Option (List GroupDiv)) :=
  navLoop container NAV

/-- The heading texts of a rendered group div, in order. -/
def headingsOf (d : GroupDiv) : List String :=
  d.children.filterMap (fun l =>
    match l with
    | DomLeaf.heading t => some t
    | DomLeaf.link _ _ => none)

/-- The (title, href) pairs of the anchors of a rendered group div, in
order. -/
def linksOf (d : GroupDiv) : List (String × String) :=
  d.children.filterMap (fun l =>
    match l with
    | DomLeaf.link h t => some (t, h)
    | DomLeaf.heading _ => none)

/-- Outcome of the authenticated GET of docs/Feedback.md
(site.js lines 81-90): status 200 with the version token (sha) and the
decoded content, status 404, any other status, or a network-level
rejection of the fetch. -/
inductive ReadResult where
  | found (sha : JsStr) (content : JsStr)
  | notFound
  | badStatus (code : Nat)
  | netError (msg : JsStr)
deriving DecidableEq, Repr

/-- Outcome of the authenticated PUT (site.js lines 105-110): res.ok, a
non-ok status, or a network-level rejection. -/
inductive WriteOutcome where
  | ok
  | failStatus (code : Nat)
  | netError (msg : JsStr)
deriving DecidableEq, Repr

/-- The PUT request body assembled in site.js lines 98-103 (content is
modelled pre-base64). -/
structure WriteRequest where
  content : JsStr
  sha : Option JsStr
  message : JsStr
  branch : JsStr
deriving DecidableEq, Repr

/-- A network call issued by one submission attempt, in order. -/
inductive NetCall where
  | read
  | write (req : WriteRequest)
deriving DecidableEq, Repr

/-- Observable result of one click of the submit button: the network
calls issued in order, the final text of the feedback-status span, and
the final value of the feedback input. -/
structure SubmitResult where
  calls : List NetCall
  statusText : JsStr
  inputValue : JsStr
deriving DecidableEq, Repr

/-- The appended entry (site.js line 94): a leading newline, a dash, the
bracketed timestamp, the page path+query in parentheses, a space, and the
feedback text. -/
def feedbackEntry (when page txt : JsStr) : JsStr :=
  "\n- [".toList ++ when ++ "] (".toList ++ page ++ ") ".toList ++ txt

/-- The composed new content (site.js line 95): base content plus entry,
with all leading whitespace stripped. -/
def composeContent (existing when page txt : JsStr) : JsStr :=
  stripLeadingWs (existing ++ feedbackEntry when page txt)

/-- The commit message of the PUT body (site.js line 99). -/
def commitMessage (page : JsStr) : JsStr :=
  "Add feedback from page ".toList ++ page

/-- Decimal rendering of an HTTP status code, as string concatenation in
the thrown error messages renders it. -/
def natMsg (c : Nat) : JsStr := (toString c).toList

/-- The PUT request assembled for a submission (site.js lines 96-103):
composed content, the version token when one was captured, the commit
message, branch main. -/
def mkWriteRequest (existing : JsStr) (sha : Option JsStr)
    (when page txt : JsStr) : WriteRequest :=
  { content := composeContent existing when page txt
    sha := sha
    message := commitMessage page
    branch := "main".toList }

/-- The tail of the submit handler once the read has succeeded (status
200 or 404, site.js lines 92-116): compose, PUT, and either confirm and
clear the input or surface the error and leave the input intact. -/
def afterRead (inputVal : JsStr) (sha : Option JsStr) (existing : JsStr)
    (when page txt : JsStr) (w : WriteOutcome) : SubmitResult :=
  let req := mkWriteRequest existing sha when page txt
  match w with
  | WriteOutcome.ok =>
      { calls := [NetCall.read, NetCall.write req]
        statusText := "Thanks — feedback submitted.".toList
        inputValue := [] }
  | WriteOutcome.failStatus c =>
      { calls := [NetCall.read, NetCall.write req]
        statusText := "Error: GitHub API error: ".toList ++ natMsg c
        inputValue := inputVal }
  | WriteOutcome.netError m =>
      { calls := [NetCall.read, NetCall.write req]
        statusText := "Error: ".toList ++ m
        inputValue := inputVal }

/-- The click handler of the submit button (site.js lines 64-117).
inputVal is the raw textarea value; token is the prompt result (none when
cancelled); read and w are the outcomes of the two network calls; when is
the ISO timestamp from Date().toISOString(); page is
location.pathname + location.search. -/
def submitFeedback (inputVal : JsStr) (token : Option JsStr)
    (read : ReadResult) (w : WriteOutcome) (when page : JsStr) :
    SubmitResult :=
  let txt := jsTrim inputVal
  if txt = [] then
    { calls := [], statusText := "Please enter feedback.".toList
      inputValue := inputVal }
  else if txt.length > 200 then
    { calls := [], statusText := "Feedback too long.".toList
      inputValue := inputVal }
  else
    match token with
    | none =>
        { calls := [], statusText := "Submission cancelled.".toList
          inputValue := inputVal }
    | some tok =>
        if tok = [] then
          { calls := [], statusText := "Submission cancelled.".toList
            inputValue := inputVal }
        else
          match read with
          | ReadResult.found sha existing =>
              afterRead inputVal (if sha = [] then none else some sha)
                existing when page txt w
          | ReadResult.notFound =>
              afterRead inputVal none [] when page txt w
          | ReadResult.badStatus c =>
              { calls := [NetCall.read]
                statusText :=
                  "Error: Unable to read Feedback file: ".toList ++ natMsg c
                inputValue := inputVal }
          | ReadResult.netError m =>
              { calls := [NetCall.read]
                statusText := "Error: ".toList ++ m
                inputValue := inputVal }

/-- The base text the composition step starts from, per read outcome:
the decoded content on 200, the empty string otherwise (site.js
lines 82-87). -/
def ReadResult.existingText : ReadResult → JsStr
  | ReadResult.found _ c => c
  | _ => []

/-- Whether the read outcome lets the handler proceed to the write
(status 200 or 404). -/
def ReadResult.proceeds : ReadResult → Bool
  | ReadResult.found _ _ => true
  | ReadResult.notFound => true
  | _ => false

/-- Shape check for the timestamps Date().toISOString() produces:
YYYY-MM-DDTHH:MM:SS.mmmZ, 24 characters. -/
def isIsoTimestamp (s : JsStr) : Bool :=
  match s with
  | [y1, y2, y3, y4, q1, o1, o2, q2, d1, d2, tsep, h1, h2, r1, m1, m2,
     r2, s1, s2, pt, f1, f2, f3, zz] =>
      ([y1, y2, y3, y4, o1, o2, d1, d2, h1, h2, m1, m2, s1, s2, f1, f2,
        f3].all (fun c => '0' ≤ c && c ≤ '9')) &&
      q1 == '-' && q2 == '-' && tsep == 'T' && r1 == ':' && r2 == ':' &&
      pt == '.' && zz == 'Z'
  | _ => false

/-
Helper lemmas shared by the claim theorems below.
-/

/-- A list with at least one element refuting p has, after dropWhile p, a
head refuting p. -/
lemma exists_head_not_of_any (p : Char → Bool) :
    ∀ l : JsStr, l.any (fun c => !(p c)) = true →
    ∃ c rest, l.dropWhile p = c :: rest ∧ p c = false := by
  intro l h
  induction l with
  | nil => simp at h
  | cons a as ih =>
      by_cases hp : p a = true
      · have h' : as.any (fun c => !(p c)) = true := by
          simp [List.any_cons, hp] at h
          simpa using h
        obtain ⟨c, rest, hd, hc⟩ := ih h'
        exact ⟨c, rest, by simp [List.dropWhile_cons, hp, hd], hc⟩
      · exact ⟨a, as, by simp [List.dropWhile_cons, hp], by simpa using hp⟩

/-- The entry line in explicit character form. -/
lemma feedbackEntry_eq (when page txt : JsStr) :
    feedbackEntry when page txt =
      '\n' :: '-' :: ' ' :: '[' ::
        (when ++ ']' :: ' ' :: '(' :: (page ++ ')' :: ' ' :: txt)) := by
  simp [feedbackEntry, List.append_assoc]

/-- When the base content starts with a non-whitespace character, the
leading-whitespace strip of the composition removes nothing. -/
lemma compose_head_not_ws (c0 : Char) (cs when page txt : JsStr)
    (h : isJsWhitespace c0 = false) :
    composeContent (c0 :: cs) when page txt =
      (c0 :: cs) ++ feedbackEntry when page txt := by
  simp [composeContent, stripLeadingWs, List.dropWhile_cons, h]

/-- On an empty base content, the strip removes exactly the entry's
leading newline. -/
lemma compose_nil (when page txt : JsStr) :
    composeContent [] when page txt =
      '-' :: ' ' :: '[' ::
        (when ++ ']' :: ' ' :: '(' :: (page ++ ')' :: ' ' :: txt)) := by
  have h1 : isJsWhitespace '\n' = true := by decide
  have h2 : isJsWhitespace '-' = false := by decide
  simp [composeContent, stripLeadingWs, feedbackEntry_eq, List.dropWhile_cons,
    h1, h2]

/-- Anchor elements contribute no heading text. -/
lemma filterMap_links_headings (items : List NavItem) :
    (items.map (fun it => DomLeaf.link it.href it.title)).filterMap
      (fun l =>
        match l with
        | DomLeaf.heading t => some t
        | DomLeaf.link _ _ => none) = [] := by
  induction items with
  | nil => rfl
  | cons it its ih => simp [List.filterMap_cons, ih]

/-- The anchors of a group reproduce its items, in order. -/
lemma filterMap_links_links (items : List NavItem) :
    (items.map (fun it => DomLeaf.link it.href it.title)).filterMap
      (fun l =>
        match l with
        | DomLeaf.link h t => some (t, h)
        | DomLeaf.heading _ => none) =
      items.map (fun it => (it.title, it.href)) := by
  induction items with
  | nil => rfl
  | cons it its ih => simp [List.filterMap_cons, ih]

/-- A submission whose note passes validation and whose token prompt was
answered reaches the read and proceeds by the read outcome. -/
lemma submitFeedback_valid (inputVal tok : JsStr) (read : ReadResult)
    (w : WriteOutcome) (when page : JsStr)
    (h1 : jsTrim inputVal ≠ []) (h2 : (jsTrim inputVal).length ≤ 200)
    (htok : tok ≠ []) :
    submitFeedback inputVal (some tok) read w when page =
      match read with
      | ReadResult.found sha existing =>
          afterRead inputVal (if sha = [] then none else some sha) existing
            when page (jsTrim inputVal) w
      | ReadResult.notFound =>
          afterRead inputVal none [] when page (jsTrim inputVal) w
      | ReadResult.badStatus c =>
          { calls := [NetCall.read]
            statusText :=
              "Error: Unable to read Feedback file: ".toList ++ natMsg c
            inputValue := inputVal }
      | ReadResult.netError m =>
          { calls := [NetCall.read]
            statusText := "Error: ".toList ++ m
            inputValue := inputVal } := by
  have h2' : ¬ (jsTrim inputVal).length > 200 := by omega
  simp [submitFeedback, h1, h2', htok]

/-
Claim theorems.
-/

/-- Claim C1, counterexample: with existing content C = " x" (which
starts with a whitespace character) and version token "abc", the
successful submission's write does NOT carry content equal to C followed
by the new entry line: the leading-whitespace strip of site.js line 95
also removes the leading space of C. The second conjunct checks that a
write was indeed issued. -/
theorem c1_counterexample :
    ((submitFeedback "hi".toList (some "t".toList)
        (ReadResult.found "abc".toList " x".toList) WriteOutcome.ok
        "2026-02-03T04:05:06.789Z".toList "/p".toList).calls.any
      (fun nc =>
        match nc with
        | NetCall.write req =>
            req.content ==
              " x".toList ++ feedbackEntry "2026-02-03T04:05:06.789Z".toList
                "/p".toList "hi".toList
        | NetCall.read => false)) = false ∧
    ((submitFeedback "hi".toList (some "t".toList)
        (ReadResult.found "abc".toList " x".toList) WriteOutcome.ok
        "2026-02-03T04:05:06.789Z".toList "/p".toList).calls.any
      (fun nc =>
        match nc with
        | NetCall.write _ => true
        | NetCall.read => false)) = true := by
  decide

/-- Claim C1, amended: when the read succeeds with a non-empty version
token T and existing content C that is non-empty and does not start with
a whitespace character, the successful submission issues exactly one
write carrying version token T and content equal to C followed by
exactly one new line: a leading newline, the bracketed ISO-8601
timestamp, the page path+query in parentheses, a single space, and the
(trimmed) feedback text, with C itself unchanged. -/
theorem c1_amended (inputVal tok shaT : JsStr) (c0 : Char)
    (cs when page : JsStr)
    (h1 : jsTrim inputVal ≠ []) (h2 : (jsTrim inputVal).length ≤ 200)
    (htok : tok ≠ []) (hsha : shaT ≠ [])
    (hc0 : isJsWhitespace c0 = false) (hiso : isIsoTimestamp when = true) :
    submitFeedback inputVal (some tok) (ReadResult.found shaT (c0 :: cs))
        WriteOutcome.ok when page =
      { calls := [NetCall.read, NetCall.write
          { content := (c0 :: cs) ++ feedbackEntry when page (jsTrim inputVal)
            sha := some shaT
            message := commitMessage page
            branch := "main".toList }]
        statusText := "Thanks — feedback submitted.".toList
        inputValue := [] } := by
  rw [submitFeedback_valid _ _ _ _ _ _ h1 h2 htok]
  simp [afterRead, mkWriteRequest, hsha, compose_head_not_ws _ _ _ _ _ hc0]

/-- Claim C1, witness: the amended theorem applied at a concrete
submission. -/
theorem c1_witness :
    submitFeedback "hi".toList (some "t".toList)
        (ReadResult.found "abc".toList "x!".toList) WriteOutcome.ok
        "2026-02-03T04:05:06.789Z".toList "/p".toList =
      { calls := [NetCall.read, NetCall.write
          { content := "x!".toList ++
              feedbackEntry "2026-02-03T04:05:06.789Z".toList "/p".toList
                "hi".toList
            sha := some "abc".toList
            message := commitMessage "/p".toList
            branch := "main".toList }]
        statusText := "Thanks — feedback submitted.".toList
        inputValue := [] } :=
  c1_amended "hi".toList "t".toList "abc".toList 'x' "!".toList
    "2026-02-03T04:05:06.789Z".toList "/p".toList (by decide) (by decide)
    (by decide) (by decide) (by decide) (by decide)

/-- Claim C2, counterexample: submitting "Great docs!" from
"/pages/quick-start.html" at a fixed time against a missing (404) remote
resource issues a write whose body is NOT the claimed
newline-led line: the leading-whitespace strip of site.js line 95 removes
the leading newline, so the body starts with the dash. The second
conjunct checks that the write carries no version token. -/
theorem c2_counterexample :
    ((submitFeedback "Great docs!".toList (some "t".toList)
        ReadResult.notFound WriteOutcome.ok
        "2026-02-03T04:05:06.789Z".toList
        "/pages/quick-start.html".toList).calls.any
      (fun nc =>
        match nc with
        | NetCall.write req =>
            req.content ==
              "\n- [2026-02-03T04:05:06.789Z] (/pages/quick-start.html) Great docs!".toList
        | NetCall.read => false)) = false ∧
    ((submitFeedback "Great docs!".toList (some "t".toList)
        ReadResult.notFound WriteOutcome.ok
        "2026-02-03T04:05:06.789Z".toList
        "/pages/quick-start.html".toList).calls.any
      (fun nc =>
        match nc with
        | NetCall.write req => req.sha == none
        | NetCall.read => false)) = true := by
  decide

/-- Claim C2, amended: against a missing (404) remote resource a
successful submission issues exactly one write with no version token and
body equal to the single entry line WITHOUT its leading newline (the
leading-whitespace strip removes it): dash, space, bracketed timestamp,
page in parentheses, space, feedback text. -/
theorem c2_amended (inputVal tok when page : JsStr)
    (h1 : jsTrim inputVal ≠ []) (h2 : (jsTrim inputVal).length ≤ 200)
    (htok : tok ≠ []) (hiso : isIsoTimestamp when = true) :
    submitFeedback inputVal (some tok) ReadResult.notFound WriteOutcome.ok
        when page =
      { calls := [NetCall.read, NetCall.write
          { content := '-' :: ' ' :: '[' ::
              (when ++ ']' :: ' ' :: '(' ::
                (page ++ ')' :: ' ' :: jsTrim inputVal))
            sha := none
            message := commitMessage page
            branch := "main".toList }]
        statusText := "Thanks — feedback submitted.".toList
        inputValue := [] } := by
  rw [submitFeedback_valid _ _ _ _ _ _ h1 h2 htok]
  simp [afterRead, mkWriteRequest, compose_nil]

/-- Claim C2, witness: the amended theorem at the concrete scenario of
the claim ("Great docs!" from "/pages/quick-start.html"). -/
theorem c2_witness :
    submitFeedback "Great docs!".toList (some "t".toList)
        ReadResult.notFound WriteOutcome.ok
        "2026-02-03T04:05:06.789Z".toList
        "/pages/quick-start.html".toList =
      { calls := [NetCall.read, NetCall.write
          { content := '-' :: ' ' :: '[' ::
              ("2026-02-03T04:05:06.789Z".toList ++ ']' :: ' ' :: '(' ::
                ("/pages/quick-start.html".toList ++ ')' :: ' ' ::
                  jsTrim "Great docs!".toList))
            sha := none
            message := commitMessage "/pages/quick-start.html".toList
            branch := "main".toList }]
        statusText := "Thanks — feedback submitted.".toList
        inputValue := [] } :=
  c2_amended "Great docs!".toList "t".toList
    "2026-02-03T04:05:06.789Z".toList "/pages/quick-start.html".toList
    (by decide) (by decide) (by decide) (by decide)

/-- Claim C3: validation is by character count of the (trimmed) feedback
text: length 0 yields the empty-feedback message, leaves the input
unchanged and issues no network call; length above 200 yields the
too-long message, leaves the input unchanged and issues no network call;
length in 1..200 passes validation and the submission proceeds to the
read. -/
theorem c3_validation (inputVal tok when page : JsStr) (read : ReadResult)
    (w : WriteOutcome) (htok : tok ≠ []) :
    ((jsTrim inputVal).length = 0 →
      submitFeedback inputVal (some tok) read w when page =
        { calls := [], statusText := "Please enter feedback.".toList
          inputValue := inputVal }) ∧
    ((jsTrim inputVal).length > 200 →
      submitFeedback inputVal (some tok) read w when page =
        { calls := [], statusText := "Feedback too long.".toList
          inputValue := inputVal }) ∧
    (1 ≤ (jsTrim inputVal).length → (jsTrim inputVal).length ≤ 200 →
      NetCall.read ∈
        (submitFeedback inputVal (some tok) read w when page).calls) := by
  refine ⟨?_, ?_, ?_⟩
  · intro h0
    have he : jsTrim inputVal = [] := List.length_eq_zero.mp h0
    simp [submitFeedback, he]
  · intro hgt
    have hne : jsTrim inputVal ≠ [] := by
      intro h; rw [h] at hgt; simp at hgt
    simp [submitFeedback, hne, hgt]
  · intro hge hle
    have hne : jsTrim inputVal ≠ [] := by
      intro h; rw [h] at hge; simp at hge
    rw [submitFeedback_valid _ _ _ _ _ _ hne hle htok]
    cases read <;> cases w <;> simp [afterRead]

/-- Claim C3, witness: a 2-character note passes validation and the read
is issued. -/
theorem c3_witness :
    NetCall.read ∈ (submitFeedback "hi".toList (some "t".toList)
      ReadResult.notFound WriteOutcome.ok "2026-02-03T04:05:06.789Z".toList
      "/p".toList).calls :=
  (c3_validation "hi".toList "t".toList "2026-02-03T04:05:06.789Z".toList
    "/p".toList ReadResult.notFound WriteOutcome.ok (by decide)).2.2
    (by decide) (by decide)

/-- Claim C4: when the read fails other than with 404 - an unexpected
status (auth rejection included) or a network failure - the attempt
issues no write, ends in the failed display state, and the status
message surfaces the underlying reason (the status code, or the network
error message). -/
theorem c4_read_failure (inputVal tok when page m : JsStr) (code : Nat)
    (w : WriteOutcome)
    (h1 : jsTrim inputVal ≠ []) (h2 : (jsTrim inputVal).length ≤ 200)
    (htok : tok ≠ []) :
    (submitFeedback inputVal (some tok) (ReadResult.badStatus code) w
        when page =
      { calls := [NetCall.read]
        statusText :=
          "Error: Unable to read Feedback file: ".toList ++ natMsg code
        inputValue := inputVal }) ∧
    (submitFeedback inputVal (some tok) (ReadResult.netError m) w when page =
      { calls := [NetCall.read]
        statusText := "Error: ".toList ++ m
        inputValue := inputVal }) := by
  refine ⟨?_, ?_⟩ <;> rw [submitFeedback_valid _ _ _ _ _ _ h1 h2 htok]

/-- Claim C4, witness: a 500 read and a network failure at a concrete
submission, neither issuing a write. -/
theorem c4_witness :
    (submitFeedback "hi".toList (some "t".toList) (ReadResult.badStatus 500)
        WriteOutcome.ok "2026-02-03T04:05:06.789Z".toList "/p".toList =
      { calls := [NetCall.read]
        statusText :=
          "Error: Unable to read Feedback file: ".toList ++ natMsg 500
        inputValue := "hi".toList }) ∧
    (submitFeedback "hi".toList (some "t".toList)
        (ReadResult.netError "fetch failed".toList) WriteOutcome.ok
        "2026-02-03T04:05:06.789Z".toList "/p".toList =
      { calls := [NetCall.read]
        statusText := "Error: ".toList ++ "fetch failed".toList
        inputValue := "hi".toList }) :=
  c4_read_failure "hi".toList "t".toList "2026-02-03T04:05:06.789Z".toList
    "/p".toList "fetch failed".toList 500 WriteOutcome.ok (by decide)
    (by decide) (by decide)

/-- Claim C5, counterexample: with a base content of 40 spaces, the
successful append produces written content STRICTLY SHORTER than the
base (the leading-whitespace strip removes all 40 spaces and the entry's
leading newline), refuting the strict length increase. The second
conjunct checks that a write was issued. -/
theorem c5_counterexample :
    ((submitFeedback "a".toList (some "t".toList)
        (ReadResult.found "abc".toList (List.replicate 40 ' '))
        WriteOutcome.ok "2026-02-03T04:05:06.789Z".toList
        "/p".toList).calls.all
      (fun nc =>
        match nc with
        | NetCall.write req =>
            decide (req.content.length < (List.replicate 40 ' ' : JsStr).length)
        | NetCall.read => true)) = true ∧
    ((submitFeedback "a".toList (some "t".toList)
        (ReadResult.found "abc".toList (List.replicate 40 ' '))
        WriteOutcome.ok "2026-02-03T04:05:06.789Z".toList
        "/p".toList).calls.any
      (fun nc =>
        match nc with
        | NetCall.write _ => true
        | NetCall.read => false)) = true := by
  decide

/-- Claim C5, amended: when the base content is empty or starts with a
non-whitespace character, and the timestamp, page identifier and
feedback text contain no embedded newline, the composed content extends
the base content, is strictly longer than it, and the added suffix is a
single line (no newline beyond the separating one). -/
theorem c5_amended (existing when page txt : JsStr)
    (hex : existing = [] ∨
      ∃ c0 cs, existing = c0 :: cs ∧ isJsWhitespace c0 = false)
    (hn1 : txt.all (fun c => !(c == '\n')) = true)
    (hn2 : when.all (fun c => !(c == '\n')) = true)
    (hn3 : page.all (fun c => !(c == '\n')) = true) :
    ∃ l : JsStr, composeContent existing when page txt = existing ++ l ∧
      existing.length < (composeContent existing when page txt).length ∧
      l ≠ [] ∧ l.tail.all (fun c => !(c == '\n')) = true := by
  rcases hex with h0 | ⟨c0, cs, hcons, hws⟩
  · subst h0
    refine ⟨'-' :: ' ' :: '[' ::
      (when ++ ']' :: ' ' :: '(' :: (page ++ ')' :: ' ' :: txt)),
      ?_, ?_, ?_, ?_⟩
    · simpa using compose_nil when page txt
    · simp [compose_nil]
    · simp
    · simp [List.all_cons, List.all_append, hn1, hn2, hn3]
  · subst hcons
    refine ⟨feedbackEntry when page txt,
      compose_head_not_ws c0 cs when page txt hws, ?_, ?_, ?_⟩
    · rw [compose_head_not_ws c0 cs when page txt hws]
      simp [feedbackEntry_eq]
    · simp [feedbackEntry_eq]
    · simp [feedbackEntry_eq, List.all_cons, List.all_append, hn1, hn2, hn3]

/-- Claim C5, witness: the amended theorem at a concrete base and note. -/
theorem c5_witness :
    ∃ l : JsStr,
      composeContent "base".toList "2026-02-03T04:05:06.789Z".toList
          "/p".toList "hi".toList = "base".toList ++ l ∧
      ("base".toList : JsStr).length <
        (composeContent "base".toList "2026-02-03T04:05:06.789Z".toList
          "/p".toList "hi".toList).length ∧
      l ≠ [] ∧ l.tail.all (fun c => !(c == '\n')) = true :=
  c5_amended "base".toList "2026-02-03T04:05:06.789Z".toList "/p".toList
    "hi".toList (Or.inr ⟨'b', "ase".toList, rfl, by decide⟩) (by decide)
    (by decide) (by decide)

/-- Claim C6: when the write fails (non-ok status, or a network
failure), the typed feedback text is left intact in the input and a
failure message naming the error is shown; the input is cleared only on
a successful write, which shows the confirmation message. -/
theorem c6_write_failure (inputVal tok when page m : JsStr)
    (read : ReadResult) (code : Nat)
    (h1 : jsTrim inputVal ≠ []) (h2 : (jsTrim inputVal).length ≤ 200)
    (htok : tok ≠ []) (hr : read.proceeds = true) :
    ((submitFeedback inputVal (some tok) read (WriteOutcome.failStatus code)
        when page).inputValue = inputVal ∧
     (submitFeedback inputVal (some tok) read (WriteOutcome.failStatus code)
        when page).statusText =
       "Error: GitHub API error: ".toList ++ natMsg code) ∧
    ((submitFeedback inputVal (some tok) read (WriteOutcome.netError m)
        when page).inputValue = inputVal ∧
     (submitFeedback inputVal (some tok) read (WriteOutcome.netError m)
        when page).statusText = "Error: ".toList ++ m) ∧
    ((submitFeedback inputVal (some tok) read WriteOutcome.ok
        when page).inputValue = [] ∧
     (submitFeedback inputVal (some tok) read WriteOutcome.ok
        when page).statusText = "Thanks — feedback submitted.".toList) := by
  cases read with
  | found sha existing =>
      rw [submitFeedback_valid _ _ _ _ _ _ h1 h2 htok,
          submitFeedback_valid _ _ _ _ _ _ h1 h2 htok,
          submitFeedback_valid _ _ _ _ _ _ h1 h2 htok]
      simp [afterRead]
  | notFound =>
      rw [submitFeedback_valid _ _ _ _ _ _ h1 h2 htok,
          submitFeedback_valid _ _ _ _ _ _ h1 h2 htok,
          submitFeedback_valid _ _ _ _ _ _ h1 h2 htok]
      simp [afterRead]
  | badStatus c => simp [ReadResult.proceeds] at hr
  | netError m2 => simp [ReadResult.proceeds] at hr

/-- Claim C6, witness: a 409 write failure, a network write failure and a
successful write at a concrete submission. -/
theorem c6_witness :
    ((submitFeedback "hi".toList (some "t".toList)
        (ReadResult.found "abc".toList "base".toList)
        (WriteOutcome.failStatus 409) "2026-02-03T04:05:06.789Z".toList
        "/p".toList).inputValue = "hi".toList ∧
     (submitFeedback "hi".toList (some "t".toList)
        (ReadResult.found "abc".toList "base".toList)
        (WriteOutcome.failStatus 409) "2026-02-03T04:05:06.789Z".toList
        "/p".toList).statusText =
       "Error: GitHub API error: ".toList ++ natMsg 409) ∧
    ((submitFeedback "hi".toList (some "t".toList)
        (ReadResult.found "abc".toList "base".toList)
        (WriteOutcome.netError "fetch failed".toList)
        "2026-02-03T04:05:06.789Z".toList
        "/p".toList).inputValue = "hi".toList ∧
     (submitFeedback "hi".toList (some "t".toList)
        (ReadResult.found "abc".toList "base".toList)
        (WriteOutcome.netError "fetch failed".toList)
        "2026-02-03T04:05:06.789Z".toList
        "/p".toList).statusText =
       "Error: ".toList ++ "fetch failed".toList) ∧
    ((submitFeedback "hi".toList (some "t".toList)
        (ReadResult.found "abc".toList "base".toList) WriteOutcome.ok
        "2026-02-03T04:05:06.789Z".toList
        "/p".toList).inputValue = [] ∧
     (submitFeedback "hi".toList (some "t".toList)
        (ReadResult.found "abc".toList "base".toList) WriteOutcome.ok
        "2026-02-03T04:05:06.789Z".toList
        "/p".toList).statusText =
       "Thanks — feedback submitted.".toList) :=
  c6_write_failure "hi".toList "t".toList "2026-02-03T04:05:06.789Z".toList
    "/p".toList "fetch failed".toList
    (ReadResult.found "abc".toList "base".toList) 409 (by decide) (by decide)
    (by decide) (by decide)

/-- Claim C7, counterexample: with the navigation container absent, the
render is NOT a silent no-op: the NAV.forEach loop dereferences the null
container on its first group and raises a TypeError. -/
theorem c7_counterexample : buildNav none = Except.error "TypeError" := rfl

/-- Claim C7, amended: with the navigation container absent and a
non-empty group sequence (as NAV is), the render loop inserts nothing
into the document but raises a TypeError fault instead of failing
silently; it is a no-op only for an empty group sequence. -/
theorem c7_amended (gs : List NavGroup) (h : gs ≠ []) :
    navLoop none gs = Except.error "TypeError" := by
  cases gs with
  | nil => exact absurd rfl h
  | cons g rest => rfl

/-- Claim C7, witness: the amended theorem at the hardcoded NAV. -/
theorem c7_witness : navLoop none NAV = Except.error "TypeError" :=
  c7_amended NAV (by decide)

/-- Claim C8: rendering into a present container appends one group div
per group, in group order; each group div holds exactly one heading
(the group title) and one link per entry, preserving intra-group order
exactly, with no reordering and no deduplication. -/
theorem c8_nav_render_order (cs : List GroupDiv) (nav : List NavGroup) :
    navLoop (some cs) nav = Except.ok (some (cs ++ nav.map renderGroup)) ∧
    ∀ g : NavGroup, headingsOf (renderGroup g) = [g.title] ∧
      linksOf (renderGroup g) = g.items.map (fun it => (it.title, it.href)) := by
  constructor
  · induction nav generalizing cs with
    | nil => simp [navLoop]
    | cons g gs ih => simp [navLoop, ih, List.append_assoc]
  · intro g
    constructor
    · simp [headingsOf, renderGroup, List.filterMap_cons, filterMap_links_headings]
    · simp only [linksOf, renderGroup, List.filterMap_cons]
      exact filterMap_links_links g.items

/-- Claim C9: the submitter operates on the whitespace-trimmed text: a
whitespace-only input is rejected as empty with no network call, and
whenever a write is issued its content is composed from the trimmed
text, not the raw input. -/
theorem c9_trimmed (inputVal tok when page : JsStr) (read : ReadResult)
    (w : WriteOutcome) (htok : tok ≠ []) :
    (jsTrim inputVal = [] →
      submitFeedback inputVal (some tok) read w when page =
        { calls := [], statusText := "Please enter feedback.".toList
          inputValue := inputVal }) ∧
    (jsTrim inputVal ≠ [] → (jsTrim inputVal).length ≤ 200 →
      ∀ req : WriteRequest,
        NetCall.write req ∈
          (submitFeedback inputVal (some tok) read w when page).calls →
        req.content =
          composeContent read.existingText when page (jsTrim inputVal)) := by
  constructor
  · intro h0; simp [submitFeedback, h0]
  · intro hne hle req hmem
    rw [submitFeedback_valid _ _ _ _ _ _ hne hle htok] at hmem
    cases read <;> cases w <;>
      simp [afterRead, mkWriteRequest, ReadResult.existingText] at hmem ⊢ <;>
      simp [hmem]

/-- Claim C9, witness: an all-whitespace input is rejected as empty and
issues no network call. -/
theorem c9_witness :
    submitFeedback "   ".toList (some "t".toList) ReadResult.notFound
        WriteOutcome.ok "2026-02-03T04:05:06.789Z".toList "/p".toList =
      { calls := [], statusText := "Please enter feedback.".toList
        inputValue := "   ".toList } :=
  (c9_trimmed "   ".toList "t".toList "2026-02-03T04:05:06.789Z".toList
    "/p".toList ReadResult.notFound WriteOutcome.ok (by decide)).1 (by decide)

/-- Claim C10: for every base content and submission, the composed
content sent in the write request never begins with a whitespace
character: it is non-empty and its first character is non-whitespace. -/
theorem c10_composed_no_leading_ws (existing when page txt : JsStr) :
    ∃ c rest, composeContent existing when page txt = c :: rest ∧
      isJsWhitespace c = false := by
  have h2 : (!(isJsWhitespace '-')) = true := by decide
  have hany : (existing ++ feedbackEntry when page txt).any
      (fun c => !(isJsWhitespace c)) = true := by
    simp [List.any_append, feedbackEntry_eq, List.any_cons, h2]
  obtain ⟨c, rest, hd, hc⟩ :=
    exists_head_not_of_any isJsWhitespace
      (existing ++ feedbackEntry when page txt) hany
  exact ⟨c, rest, by simpa [composeContent, stripLeadingWs] using hd, hc⟩

end Site
